import Mathlib

/-!
Verification of the quest event dispatch engine of
`src/server/internal/quest/quest-manager.go` (package `quest`).

Shallow embedding conventions:

* Go maps (`map[string]map[QuestEventType]QuestHandler`) are modelled as
  association lists with key-unique insert/delete helpers (`mapLookup`,
  `mapInsert`, `mapDelete`).  A nil Go map behaves exactly like an empty map
  for reads, and `Register`/`Unregister` materialize nil maps before writing,
  so nil and empty are identified with the empty list `[]`.
* A Go handler (`func(*QuestEvent) bool`) receives a pointer to the event and
  may mutate it; its call may also raise a runtime panic.  It is modelled as a
  function `QuestEvent → HandlerResult × QuestEvent`, returning the outcome
  (normal boolean return, or a panic) together with the possibly-mutated event.
* Panics are modelled as an `Option String` / `HandlerResult.panicked`
  component of a function's result: `some msg` means the Go call panicked with
  message `msg` after performing the state mutations recorded in the returned
  state (Go panics do not roll back map writes already performed).
* The `sync.RWMutex` field `Mu` and the lock operations taken by the methods
  are modelled by the instrumented dispatcher `InvokeTr`, whose first result
  component is the list of lock/handler-call events the method performs, in
  order.  In the source, `Register` and `Unregister` take the write lock
  (`z.Mu.Lock()` / deferred `Unlock`); `Invoke` performs no lock operation at
  all — its event trace contains only the handler call.
* `entity.Moblike` (a Go interface, nilable), `items.ItemInstance` and
  `model.Spawn2` are opaque to the engine: it only stores and forwards them.
  They are modelled as opaque references carrying a `Nat` identity.
* `uint16` / `uint32` fields hold values that are only stored and read back,
  never computed with, so they are modelled as `Nat`.
-/

/-- Association-list lookup, mirroring a Go map read (`m[k]`): the value at
the first matching key, `none` when absent (the Go zero value / `ok = false`). -/
def mapLookup {K V : Type} [DecidableEq K] : List (K × V) → K → Option V
  | [], _ => none
  | (k, v) :: rest, key => if k = key then some v else mapLookup rest key

/-- Association-list insert, mirroring a Go map write (`m[k] = v`): replaces
the value at an existing key in place, otherwise appends the new binding. -/
def mapInsert {K V : Type} [DecidableEq K] : List (K × V) → K → V → List (K × V)
  | [], key, val => [(key, val)]
  | (k, v) :: rest, key, val =>
    if k = key then (key, val) :: rest else (k, v) :: mapInsert rest key val

/-- Association-list delete, mirroring Go `delete(m, k)`: removes every
binding of the key (our maps are key-unique, so at most one). -/
def mapDelete {K V : Type} [DecidableEq K] : List (K × V) → K → List (K × V)
  | [], _ => []
  | (k, v) :: rest, key =>
    if k = key then mapDelete rest key else (k, v) :: mapDelete rest key

/-- Go `type QuestEventType uint16`, an iota enumeration. -/
abbrev QuestEventType := Nat

def EventSay : QuestEventType := 0
def EventTrade : QuestEventType := 1
def EventDeath : QuestEventType := 2
def EventSpawn : QuestEventType := 3
def EventAttack : QuestEventType := 4
def EventCombat : QuestEventType := 5
def EventAggro : QuestEventType := 6
def EventSlay : QuestEventType := 7

/- The Go catalog continues consecutively (EventNpcSlay = 8 … EventReadItem =
190, sentinel LargestEventId = 191); the claims under verification do not
reference the remaining kinds, only the registry/dispatch machinery. -/

/-- `entity.Moblike`: a Go interface value, possibly nil; the engine stores
and forwards it without inspecting it. -/
inductive Moblike where
  | nil
  | mob (ref : Nat)
deriving DecidableEq, Repr

/-- `items.ItemInstance`, opaque to the engine. -/
structure ItemInstance where
  ref : Nat
deriving DecidableEq, Repr

/-- `model.Spawn2`, opaque to the engine. -/
structure Spawn2 where
  ref : Nat
deriving DecidableEq, Repr

/-- An element of the `*[]interface{}` ZoneData slice, opaque to the engine. -/
abbrev ZoneDatum := Nat

/-- Go `type QuestEvent struct { ... }`.  Pointer-to-slice fields are
`Option` (none = nil pointer); the default values are the Go zero values. -/
structure QuestEvent where
  EventType : QuestEventType := 0
  Actor : Moblike := .nil
  Receiver : Moblike := .nil
  Item : Option (List ItemInstance) := none
  ZoneData : Option (List ZoneDatum) := none
  EncounterName : String := ""
  ExtraData : Nat := 0
  SpellID : Nat := 0
  ItemArray : Option (List ItemInstance) := none
  ActorArray : Option (List Spawn2) := none
  StringArray : List String := []
deriving DecidableEq, Repr

/-- Outcome of calling a Go `func(*QuestEvent) bool`: a normal boolean
return, or a runtime panic with a message. -/
inductive HandlerResult where
  | ok (b : Bool)
  | panicked (msg : String)
deriving DecidableEq, Repr

/-- Go `type QuestHandler func(*QuestEvent) bool`: the handler gets a pointer
to the event, so it returns its outcome and the possibly-mutated event. -/
structure QuestHandler where
  fn : QuestEvent → HandlerResult × QuestEvent

/-- Go `type ZoneQuestInterface struct`.  The `Mu sync.RWMutex` field is
modelled by the event traces of `InvokeTr` (see module comment); the
`ZoneAccess` facade is external to every claim and omitted.  A nil
`Handlers` map is the empty list. -/
structure ZoneQuestInterface where
  Handlers : List (String × List (QuestEventType × QuestHandler)) := []

/-- An element of `Register`'s variadic `events ...any` argument: a
`QuestEventType`, a handler (`QuestHandler` or untyped
`func(*QuestEvent) bool` — the two switch cases install identically), or a
value of any other dynamic type. -/
inductive RegisterArg where
  | kind (k : QuestEventType)
  | handler (h : QuestHandler)
  | other (desc : String)

/-- The `for i := 0; i < len(events); i += 2` loop body of `Register`,
two elements at a time over the remaining argument slice:

* `events[i].(QuestEventType)` failing ⇒ panic "arg i is not QuestEventType";
* `events[i+1]` out of range (odd-length input) ⇒ runtime index-out-of-range
  panic;
* `events[i+1]` neither `QuestHandler` nor `func(*QuestEvent) bool` ⇒ panic
  "arg i+1 is not a valid QuestHandler";
* otherwise install the pair and continue.

Map writes performed before a panic persist (first component). -/
def registerLoop :
    List (QuestEventType × QuestHandler) → List RegisterArg →
      List (QuestEventType × QuestHandler) × Option String
  | m, [] => (m, none)
  | m, .kind _ :: [] => (m, some "runtime error: index out of range")
  | m, .kind k :: .handler h :: rest => registerLoop (mapInsert m k h) rest
  | m, .kind _ :: _ :: _ => (m, some "is not a valid QuestHandler")
  | m, _ :: _ => (m, some "is not QuestEventType")

/-- A well-formed `Register` argument sequence: even length, alternating
kind/handler. -/
def validRegisterArgs : List RegisterArg → Bool
  | [] => true
  | .kind _ :: .handler _ :: rest => validRegisterArgs rest
  | _ => false

/-- `func (z *ZoneQuestInterface) Register(name string, events ...any)`.
Takes the write lock, materializes `z.Handlers` and `z.Handlers[name]` if
nil, then runs the install loop.  Returns the post-call state (including
writes made before any panic) and the panic, if one was raised. -/
def ZoneQuestInterface.Register (z : ZoneQuestInterface) (name : String)
    (events : List RegisterArg) : ZoneQuestInterface × Option String :=
  let inner := (mapLookup z.Handlers name).getD []
  let r := registerLoop inner events
  ({ Handlers := mapInsert z.Handlers name r.1 }, r.2)

/-- `func (z *ZoneQuestInterface) Unregister(name string, events ...QuestEventType)`.
Takes the write lock; returns unchanged when the name is absent (or the map
nil); with no kinds deletes the whole entry; otherwise deletes the given
kinds and drops the entry if it became empty. -/
def ZoneQuestInterface.Unregister (z : ZoneQuestInterface) (name : String)
    (events : List QuestEventType) : ZoneQuestInterface :=
  match mapLookup z.Handlers name with
  | none => z
  | some inner =>
    if events.isEmpty then
      { Handlers := mapDelete z.Handlers name }
    else
      let inner2 := events.foldl (fun m e => mapDelete m e) inner
      if inner2.isEmpty then
        { Handlers := mapDelete z.Handlers name }
      else
        { Handlers := mapInsert z.Handlers name inner2 }

/-- The two-level lookup `z.Handlers[name][k]` used by `Invoke`. -/
def ZoneQuestInterface.lookupHandler (z : ZoneQuestInterface) (name : String)
    (k : QuestEventType) : Option QuestHandler :=
  match mapLookup z.Handlers name with
  | some handlers => mapLookup handlers k
  | none => none

/-- One observable step a `ZoneQuestInterface` method performs: acquiring or
releasing the read or write side of `z.Mu`, or calling a handler with an
event record. -/
inductive TraceEv where
  | rlock
  | runlock
  | wlock
  | wunlock
  | call (h : QuestHandler) (e : QuestEvent)

/-- `true` iff the trace event is a handler call (not a lock operation). -/
def TraceEv.isCall : TraceEv → Bool
  | .call _ _ => true
  | _ => false

/-- `func (z *ZoneQuestInterface) Invoke(name string, evt *QuestEvent) bool`,
instrumented with its event trace.  The source takes no lock and has no
recover: it reads `z.Handlers[name][evt.EventType]` directly, calls the
handler if found (its result — or panic — propagating to the caller
unmodified), and returns false otherwise.  Result: (trace, outcome,
event record after the call). -/
def ZoneQuestInterface.InvokeTr (z : ZoneQuestInterface) (name : String)
    (evt : QuestEvent) : List TraceEv × HandlerResult × QuestEvent :=
  match z.lookupHandler name evt.EventType with
  | some handler => ([.call handler evt], handler.fn evt)
  | none => ([], .ok false, evt)

/-- `Invoke` without the instrumentation: outcome and post-call event
record.  `z` itself is untouched — the method performs no map write. -/
def ZoneQuestInterface.Invoke (z : ZoneQuestInterface) (name : String)
    (evt : QuestEvent) : HandlerResult × QuestEvent :=
  match z.lookupHandler name evt.EventType with
  | some handler => handler.fn evt
  | none => (.ok false, evt)

/-- `func (e *QuestEvent) Reset() *QuestEvent`: `*e = QuestEvent{}` — every
field back to its Go zero value — returning the record for chaining. -/
def QuestEvent.Reset (_e : QuestEvent) : QuestEvent := {}

/-- Builder method `Type` (named `SetType` here because `Type` is a Lean
keyword): sets the event kind, returns the record. -/
def QuestEvent.SetType (e : QuestEvent) (t : QuestEventType) : QuestEvent :=
  { e with EventType := t }

/-- Builder method `SetActor`. -/
def QuestEvent.SetActor (e : QuestEvent) (a : Moblike) : QuestEvent :=
  { e with Actor := a }

/-- Builder method `SetReceiver`. -/
def QuestEvent.SetReceiver (e : QuestEvent) (r : Moblike) : QuestEvent :=
  { e with Receiver := r }

/-- Builder method `Spell`. -/
def QuestEvent.Spell (e : QuestEvent) (id : Nat) : QuestEvent :=
  { e with SpellID := id }

/-- Builder method `Extra`. -/
def QuestEvent.Extra (e : QuestEvent) (d : Nat) : QuestEvent :=
  { e with ExtraData := d }

/-- Builder method `Encounter`. -/
def QuestEvent.Encounter (e : QuestEvent) (name : String) : QuestEvent :=
  { e with EncounterName := name }

/-- Builder method `Strings`: `e.StringArray = e.StringArray[:0]` then
`append(e.StringArray, vals...)` — the observable value of the field becomes
exactly `vals` (the truncate-then-append only reuses backing storage). -/
def QuestEvent.Strings (e : QuestEvent) (vals : List String) : QuestEvent :=
  { e with StringArray := vals }

/-- The spec's no-empty-residue invariant: every script id present in the
handler mapping maps to a non-empty kind map. -/
def noEmptyResidue (z : ZoneQuestInterface) : Bool :=
  z.Handlers.all (fun p => !p.2.isEmpty)


/-! ## Helper lemmas about the map operations -/

theorem mapLookup_mapInsert_self {K V : Type} [DecidableEq K]
    (m : List (K × V)) (k : K) (v : V) :
    mapLookup (mapInsert m k v) k = some v := by
  induction m with
  | nil => simp [mapInsert, mapLookup]
  | cons p rest ih =>
    obtain ⟨k0, v0⟩ := p
    by_cases hk : k0 = k
    · subst hk
      simp [mapInsert, mapLookup]
    · simp [mapInsert, mapLookup, hk, ih]

theorem mapLookup_mapInsert_ne {K V : Type} [DecidableEq K]
    (m : List (K × V)) (k k' : K) (v : V) (hne : k' ≠ k) :
    mapLookup (mapInsert m k v) k' = mapLookup m k' := by
  induction m with
  | nil => simp [mapInsert, mapLookup, Ne.symm hne]
  | cons p rest ih =>
    obtain ⟨k0, v0⟩ := p
    by_cases hk : k0 = k
    · subst hk
      simp [mapInsert, mapLookup, Ne.symm hne]
    · by_cases hk' : k0 = k'
      · subst hk'
        simp [mapInsert, mapLookup, hk]
      · simp [mapInsert, mapLookup, hk, hk', ih]

theorem mapLookup_mapDelete {K V : Type} [DecidableEq K]
    (m : List (K × V)) (k k' : K) :
    mapLookup (mapDelete m k) k' = if k' = k then none else mapLookup m k' := by
  induction m with
  | nil => simp [mapDelete, mapLookup]
  | cons p rest ih =>
    obtain ⟨k0, v0⟩ := p
    by_cases hk : k0 = k
    · subst hk
      rw [show mapDelete ((k0, v0) :: rest) k0 = mapDelete rest k0 by
        simp [mapDelete]]
      rw [ih]
      by_cases hk' : k' = k0
      · simp [hk']
      · simp [mapLookup, hk', Ne.symm hk']
    · by_cases hk' : k0 = k'
      · subst hk'
        simp [mapDelete, mapLookup, hk, Ne.symm hk]
      · simp [mapDelete, mapLookup, hk, hk', ih]

theorem mapLookup_foldl_mapDelete {K V : Type} [DecidableEq K]
    (ks : List K) (m : List (K × V)) (k : K) :
    mapLookup (ks.foldl (fun acc e => mapDelete acc e) m) k =
      if k ∈ ks then none else mapLookup m k := by
  induction ks generalizing m with
  | nil => simp
  | cons e rest ih =>
    by_cases hk : k ∈ rest
    · simp [List.foldl_cons, ih, hk]
    · by_cases hke : k = e
      · subst hke
        simp [List.foldl_cons, ih, hk, mapLookup_mapDelete]
      · simp [List.foldl_cons, ih, hk, hke, mapLookup_mapDelete]

theorem mapInsert_ne_nil {K V : Type} [DecidableEq K]
    (m : List (K × V)) (k : K) (v : V) : mapInsert m k v ≠ [] := by
  cases m with
  | nil => simp [mapInsert]
  | cons p rest =>
    obtain ⟨k0, v0⟩ := p
    by_cases hk : k0 = k <;> simp [mapInsert, hk]

theorem mapInsert_all {K V : Type} [DecidableEq K]
    (m : List (K × V)) (k : K) (v : V) (p : K × V → Bool)
    (hm : m.all p = true) (hv : p (k, v) = true) :
    (mapInsert m k v).all p = true := by
  induction m with
  | nil => simp [mapInsert, hv]
  | cons q rest ih =>
    obtain ⟨k0, v0⟩ := q
    simp only [List.all_cons, Bool.and_eq_true] at hm
    by_cases hk : k0 = k
    · simp [mapInsert, hk, hv, hm.2]
    · simp [mapInsert, hk, hm.1, ih hm.2]

theorem mapDelete_all {K V : Type} [DecidableEq K]
    (m : List (K × V)) (k : K) (p : K × V → Bool)
    (hm : m.all p = true) : (mapDelete m k).all p = true := by
  induction m with
  | nil => simp [mapDelete]
  | cons q rest ih =>
    obtain ⟨k0, v0⟩ := q
    simp only [List.all_cons, Bool.and_eq_true] at hm
    by_cases hk : k0 = k
    · simp [mapDelete, hk, ih hm.2]
    · simp [mapDelete, hk, hm.1, ih hm.2]

theorem mapLookup_ne_nil {K V : Type} [DecidableEq K]
    {m : List (K × V)} {k : K} {v : V} (h : mapLookup m k = some v) :
    m.isEmpty = false := by
  cases m with
  | nil => simp [mapLookup] at h
  | cons q rest => simp

/-! ## Helper lemmas about the engine operations -/

theorem InvokeTr_found (z : ZoneQuestInterface) (name : String)
    (evt : QuestEvent) (h : QuestHandler)
    (hl : z.lookupHandler name evt.EventType = some h) :
    z.InvokeTr name evt = ([.call h evt], h.fn evt) := by
  unfold ZoneQuestInterface.InvokeTr
  rw [hl]

theorem InvokeTr_notfound (z : ZoneQuestInterface) (name : String)
    (evt : QuestEvent)
    (hl : z.lookupHandler name evt.EventType = none) :
    z.InvokeTr name evt = ([], .ok false, evt) := by
  unfold ZoneQuestInterface.InvokeTr
  rw [hl]

theorem Invoke_eq_InvokeTr (z : ZoneQuestInterface) (name : String)
    (evt : QuestEvent) : z.Invoke name evt = (z.InvokeTr name evt).2 := by
  unfold ZoneQuestInterface.Invoke ZoneQuestInterface.InvokeTr
  cases z.lookupHandler name evt.EventType with
  | none => rfl
  | some handler => rfl

theorem registerLoop_ne_nil (m : List (QuestEventType × QuestHandler))
    (args : List RegisterArg) (hm : m ≠ []) : (registerLoop m args).1 ≠ [] := by
  induction m, args using registerLoop.induct with
  | case1 m => simpa [registerLoop] using hm
  | case2 m k => simpa [registerLoop] using hm
  | case3 m k h rest ih => simpa [registerLoop] using ih (mapInsert_ne_nil m k h)
  | case4 m k b rest h1 => simpa [registerLoop] using hm
  | case5 m a rest h1 => simpa [registerLoop] using hm

theorem registerLoop_panics (m : List (QuestEventType × QuestHandler))
    (args : List RegisterArg) (hargs : validRegisterArgs args = false) :
    (registerLoop m args).2.isSome = true := by
  induction m, args using registerLoop.induct with
  | case1 m => simp [validRegisterArgs] at hargs
  | case2 m k => simp [registerLoop]
  | case3 m k h rest ih =>
    simp only [validRegisterArgs] at hargs
    simpa [registerLoop] using ih hargs
  | case4 m k b rest h1 => simp [registerLoop]
  | case5 m a rest h1 => simp [registerLoop]

theorem registerLoop_ok (m : List (QuestEventType × QuestHandler))
    (args : List RegisterArg) (hargs : validRegisterArgs args = true) :
    (registerLoop m args).2 = none := by
  induction m, args using registerLoop.induct with
  | case1 m => simp [registerLoop]
  | case2 m k => simp [validRegisterArgs] at hargs
  | case3 m k h rest ih =>
    simp only [validRegisterArgs] at hargs
    simpa [registerLoop] using ih hargs
  | case4 m k b rest h1 =>
    cases b with
    | kind k2 => simp [validRegisterArgs] at hargs
    | handler h2 => exact absurd rfl (h1 h2)
    | other d => simp [validRegisterArgs] at hargs
  | case5 m a rest h1 h2 h3 =>
    cases a with
    | kind k2 =>
      cases rest with
      | nil => exact absurd rfl (fun h => h1 k2 h rfl)
      | cons b tail => exact absurd rfl (fun h => h3 k2 b tail h rfl)
    | handler h4 => simp [validRegisterArgs] at hargs
    | other d => simp [validRegisterArgs] at hargs

theorem Register_fst_Handlers (z : ZoneQuestInterface) (s : String)
    (args : List RegisterArg) :
    (z.Register s args).1.Handlers =
      mapInsert z.Handlers s
        (registerLoop ((mapLookup z.Handlers s).getD []) args).1 := rfl

theorem Register_snd (z : ZoneQuestInterface) (s : String)
    (args : List RegisterArg) :
    (z.Register s args).2 =
      (registerLoop ((mapLookup z.Handlers s).getD []) args).2 := rfl

theorem lookupHandler_Unregister_nil (z : ZoneQuestInterface) (s : String)
    (k : QuestEventType) : (z.Unregister s []).lookupHandler s k = none := by
  cases hz : mapLookup z.Handlers s with
  | none =>
    simp [ZoneQuestInterface.Unregister, ZoneQuestInterface.lookupHandler, hz]
  | some inner =>
    simp [ZoneQuestInterface.Unregister, ZoneQuestInterface.lookupHandler, hz,
      mapLookup_mapDelete]

theorem lookupHandler_Unregister (z : ZoneQuestInterface) (s : String)
    (ks : List QuestEventType) (k : QuestEventType) (hks : ks ≠ []) :
    (z.Unregister s ks).lookupHandler s k =
      if k ∈ ks then none else z.lookupHandler s k := by
  have hne : ks.isEmpty = false := by
    cases ks with
    | nil => exact absurd rfl hks
    | cons a l => rfl
  cases hz : mapLookup z.Handlers s with
  | none =>
    simp [ZoneQuestInterface.Unregister, ZoneQuestInterface.lookupHandler, hz]
  | some inner =>
    by_cases hemp : (ks.foldl (fun m e => mapDelete m e) inner).isEmpty = true
    · by_cases hk : k ∈ ks
      · simp [ZoneQuestInterface.Unregister, ZoneQuestInterface.lookupHandler,
          hz, hne, hemp, mapLookup_mapDelete, hk]
      · have hinner : mapLookup inner k = none := by
          cases hl : mapLookup inner k with
          | none => rfl
          | some h =>
            exfalso
            have hsome :
                mapLookup (ks.foldl (fun m e => mapDelete m e) inner) k
                  = some h := by
              rw [mapLookup_foldl_mapDelete]
              simp [hk, hl]
            have hf := mapLookup_ne_nil hsome
            rw [hemp] at hf
            exact absurd hf (by decide)
        simp [ZoneQuestInterface.Unregister, ZoneQuestInterface.lookupHandler,
          hz, hne, hemp, mapLookup_mapDelete, hk, hinner]
    · have hemp' :
          (ks.foldl (fun m e => mapDelete m e) inner).isEmpty = false := by
        cases hfe : (ks.foldl (fun m e => mapDelete m e) inner).isEmpty
        · rfl
        · exact absurd hfe hemp
      simp [ZoneQuestInterface.Unregister, ZoneQuestInterface.lookupHandler,
        hz, hne, hemp', mapLookup_mapInsert_self, mapLookup_foldl_mapDelete]

/-! ## Concrete fixtures used by witnesses and counterexamples -/

/-- A handler that handles the event: returns true, leaves the record alone. -/
def hTrue : QuestHandler := ⟨fun e => (.ok true, e)⟩

/-- A handler that declines the event: returns false, leaves the record alone. -/
def hFalse : QuestHandler := ⟨fun e => (.ok false, e)⟩

/-- A faulty content-script handler: raises a runtime panic. -/
def hBoom : QuestHandler := ⟨fun e => (.panicked "script fault", e)⟩

/-- A registry with one script id "rat1" handling only EventDeath. -/
def wRegistry : ZoneQuestInterface := ⟨[("rat1", [(EventDeath, hTrue)])]⟩

/-- A registry whose only handler panics when called. -/
def zBoom : ZoneQuestInterface := ⟨[("npc", [(EventDeath, hBoom)])]⟩

/-- An event record with kind EventDeath and all other fields zero. -/
def wEvtDeath : QuestEvent := { EventType := EventDeath }

/-! ## Claims -/

/-- Claim C1: for every registry state and registered pair (scriptId, kind)
with handler h, `Invoke(scriptId, event)` with an event of that kind calls h
exactly once (the call trace is exactly one call of h on the given event
record, performed synchronously as a direct function call) and returns
exactly h's result unmodified. -/
theorem quest_C1 (z : ZoneQuestInterface) (s : String) (evt : QuestEvent)
    (h : QuestHandler) (hl : z.lookupHandler s evt.EventType = some h) :
    z.InvokeTr s evt = ([.call h evt], h.fn evt) ∧
      z.Invoke s evt = h.fn evt := by
  refine ⟨InvokeTr_found z s evt h hl, ?_⟩
  rw [Invoke_eq_InvokeTr, InvokeTr_found z s evt h hl]

/-- Witness for C1 at a concrete input: registry `wRegistry` maps
("rat1", EventDeath) to `hTrue`; invoking it calls `hTrue` once and returns
its result (true, record unchanged). -/
theorem quest_C1_witness :
    wRegistry.InvokeTr "rat1" wEvtDeath =
        ([.call hTrue wEvtDeath], (.ok true, wEvtDeath)) ∧
      wRegistry.Invoke "rat1" wEvtDeath = (.ok true, wEvtDeath) :=
  quest_C1 wRegistry "rat1" wEvtDeath hTrue rfl

/-- Claim C2: if the script id is unknown, or the event's kind has no
registered handler under it, `Invoke` returns false, calls no handler (empty
call trace), and has no side effects — the event record comes back
unchanged, and the registry is untouched (`Invoke` performs no map write,
which the embedding reflects by not producing a registry at all). -/
theorem quest_C2 (z : ZoneQuestInterface) (s : String) (evt : QuestEvent)
    (hl : z.lookupHandler s evt.EventType = none) :
    z.InvokeTr s evt = ([], .ok false, evt) ∧
      z.Invoke s evt = (.ok false, evt) := by
  refine ⟨InvokeTr_notfound z s evt hl, ?_⟩
  rw [Invoke_eq_InvokeTr, InvokeTr_notfound z s evt hl]

/-- Witness for C2 at a concrete input: "rat1" has no handler for
EventSpawn, and the id "ghost" is entirely unknown. -/
theorem quest_C2_witness :
    (wRegistry.InvokeTr "rat1" { EventType := EventSpawn } =
        ([], .ok false, { EventType := EventSpawn }) ∧
      wRegistry.Invoke "rat1" { EventType := EventSpawn } =
        (.ok false, { EventType := EventSpawn })) ∧
    (wRegistry.InvokeTr "ghost" wEvtDeath = ([], .ok false, wEvtDeath) ∧
      wRegistry.Invoke "ghost" wEvtDeath = (.ok false, wEvtDeath)) :=
  ⟨quest_C2 wRegistry "rat1" { EventType := EventSpawn } rfl,
   quest_C2 wRegistry "ghost" wEvtDeath rfl⟩

/-- Claim C3 counterexample: the claim says a handler panic is contained at
the call boundary and the event treated as unhandled (`Invoke` returns
false).  In the source, `Invoke` has no recover: calling the panicking
handler of `zBoom` makes the panic the outcome of `Invoke` itself — it
propagates to the caller and the returned outcome is not `false`. -/
theorem quest_C3_counterexample :
    (zBoom.Invoke "npc" wEvtDeath).1 = .panicked "script fault" ∧
      (zBoom.Invoke "npc" wEvtDeath).1 ≠ .ok false :=
  ⟨rfl, by decide⟩

/-- Claim C3 as amended: a runtime panic raised by the invoked handler is
not contained — `Invoke` has no recover at the call boundary, so the panic
propagates out of `Invoke` to its caller, and `Invoke` does not return false
(or anything else) in that case. -/
theorem quest_C3_amended (z : ZoneQuestInterface) (s : String)
    (evt : QuestEvent) (h : QuestHandler) (msg : String) (e' : QuestEvent)
    (hl : z.lookupHandler s evt.EventType = some h)
    (hp : h.fn evt = (.panicked msg, e')) :
    (z.InvokeTr s evt).2.1 = .panicked msg ∧
      (z.Invoke s evt).1 = .panicked msg := by
  have h1 := InvokeTr_found z s evt h hl
  constructor
  · rw [h1, hp]
  · rw [Invoke_eq_InvokeTr, h1, hp]

/-- Witness for the amended C3 at a concrete input. -/
theorem quest_C3_amended_witness :
    (zBoom.InvokeTr "npc" wEvtDeath).2.1 = .panicked "script fault" ∧
      (zBoom.Invoke "npc" wEvtDeath).1 = .panicked "script fault" :=
  quest_C3_amended zBoom "npc" wEvtDeath hBoom "script fault" wEvtDeath rfl rfl

/-- Claim C5, what the code actually does: `Invoke` performs no lock
operation at all — its event trace consists of handler calls only (at most
one), never an acquisition or release of the registry's reader/writer lock.
The claimed discipline (resolve under the read lock, release before the
call) does not exist in the source, while `Register`/`Unregister` do take
the write lock, so an `Invoke` concurrent with them is an unsynchronized
map access. -/
theorem quest_C5_no_lock (z : ZoneQuestInterface) (s : String)
    (evt : QuestEvent) :
    (z.InvokeTr s evt).1.all TraceEv.isCall = true := by
  unfold ZoneQuestInterface.InvokeTr
  cases z.lookupHandler s evt.EventType with
  | none => rfl
  | some handler => rfl

/-- Claim C9: `Reset` zeroes every field of the event record — kind, actor,
receiver, item and zone-data references, encounter name, extra data, spell
id, the array references, and the string list — regardless of what was set
before, and hands the record back for reuse (the Go method returns its own
receiver pointer). -/
theorem quest_C9 (e : QuestEvent) :
    e.Reset = ({} : QuestEvent) ∧
      e.Reset.EventType = 0 ∧
      e.Reset.Actor = .nil ∧
      e.Reset.Receiver = .nil ∧
      e.Reset.Item = none ∧
      e.Reset.ZoneData = none ∧
      e.Reset.EncounterName = "" ∧
      e.Reset.ExtraData = 0 ∧
      e.Reset.SpellID = 0 ∧
      e.Reset.ItemArray = none ∧
      e.Reset.ActorArray = none ∧
      e.Reset.StringArray = [] :=
  ⟨rfl, rfl, rfl, rfl, rfl, rfl, rfl, rfl, rfl, rfl, rfl, rfl⟩

/-- Claim C10: each chained setter updates exactly the field it names and
leaves every other field unchanged (stated as equality with the one-field
record update), returning the record for chaining; `Strings` leaves the
string list equal, element for element, to exactly the given values. -/
theorem quest_C10 (e : QuestEvent) (t : QuestEventType) (a r : Moblike)
    (id d : Nat) (nm : String) (vals : List String) :
    e.SetType t = { e with EventType := t } ∧
      e.SetActor a = { e with Actor := a } ∧
      e.SetReceiver r = { e with Receiver := r } ∧
      e.Spell id = { e with SpellID := id } ∧
      e.Extra d = { e with ExtraData := d } ∧
      e.Encounter nm = { e with EncounterName := nm } ∧
      e.Strings vals = { e with StringArray := vals } :=
  ⟨rfl, rfl, rfl, rfl, rfl, rfl, rfl⟩

theorem ne_nil_isEmpty_false {α : Type} {l : List α} (h : l ≠ []) :
    l.isEmpty = false := by
  cases l with
  | nil => exact absurd rfl h
  | cons a t => rfl

/-- Claim C6: registering h1 then h2 for the same (scriptId, kind) pair
silently replaces h1 — afterwards the installed handler is h2, and every
`Invoke` of that pair calls exactly h2 (until a further Register or
Unregister for the pair, which is covered by quantifying over the resulting
state). -/
theorem quest_C6 (z : ZoneQuestInterface) (s : String) (k : QuestEventType)
    (h1 h2 : QuestHandler) :
    ((z.Register s [.kind k, .handler h1]).1.Register s
        [.kind k, .handler h2]).1.lookupHandler s k = some h2 ∧
      ∀ evt : QuestEvent, evt.EventType = k →
        ((z.Register s [.kind k, .handler h1]).1.Register s
            [.kind k, .handler h2]).1.InvokeTr s evt =
          ([.call h2 evt], h2.fn evt) := by
  have hlook :
      ((z.Register s [.kind k, .handler h1]).1.Register s
          [.kind k, .handler h2]).1.lookupHandler s k = some h2 := by
    unfold ZoneQuestInterface.lookupHandler
    rw [Register_fst_Handlers]
    rw [mapLookup_mapInsert_self]
    simp [registerLoop, mapLookup_mapInsert_self]
  exact ⟨hlook, fun evt hevt =>
    InvokeTr_found _ _ _ _ (by rw [hevt]; exact hlook)⟩

/-- Witness for C6 at a concrete input: registering `hFalse` then `hTrue`
for ("goblin", EventSay) leaves `hTrue` installed, and invoking the pair
calls only `hTrue`. -/
theorem quest_C6_witness :
    (((⟨[]⟩ : ZoneQuestInterface).Register "goblin"
        [.kind EventSay, .handler hFalse]).1.Register "goblin"
        [.kind EventSay, .handler hTrue]).1.lookupHandler "goblin" EventSay =
        some hTrue ∧
      (((⟨[]⟩ : ZoneQuestInterface).Register "goblin"
          [.kind EventSay, .handler hFalse]).1.Register "goblin"
          [.kind EventSay, .handler hTrue]).1.InvokeTr "goblin"
          { EventType := EventSay } =
        ([.call hTrue { EventType := EventSay }],
          (.ok true, { EventType := EventSay })) :=
  ⟨(quest_C6 ⟨[]⟩ "goblin" EventSay hFalse hTrue).1,
    (quest_C6 ⟨[]⟩ "goblin" EventSay hFalse hTrue).2
      { EventType := EventSay } rfl⟩

/-- Claim C7: `Unregister(s)` with no kinds removes every handler under s
(every subsequent lookup and `Invoke` for s misses and returns false);
`Unregister(s, ks)` with specific kinds removes exactly those kinds, and
every other kind previously registered for s keeps its handler and remains
invocable with it. -/
theorem quest_C7 (z : ZoneQuestInterface) (s : String) :
    ((∀ k : QuestEventType, (z.Unregister s []).lookupHandler s k = none) ∧
      ∀ evt : QuestEvent,
        (z.Unregister s []).InvokeTr s evt = ([], .ok false, evt)) ∧
    ∀ ks : List QuestEventType, ks ≠ [] →
      (∀ k : QuestEventType, k ∈ ks →
          (z.Unregister s ks).lookupHandler s k = none) ∧
      ∀ k : QuestEventType, ∀ h : QuestHandler, k ∉ ks →
        z.lookupHandler s k = some h →
          (z.Unregister s ks).lookupHandler s k = some h ∧
          ∀ evt : QuestEvent, evt.EventType = k →
            (z.Unregister s ks).InvokeTr s evt = ([.call h evt], h.fn evt) := by
  refine ⟨⟨fun k => lookupHandler_Unregister_nil z s k,
    fun evt => InvokeTr_notfound _ _ _ (lookupHandler_Unregister_nil z s _)⟩,
    ?_⟩
  intro ks hks
  refine ⟨fun k hk => ?_, fun k h hk hlk => ?_⟩
  · rw [lookupHandler_Unregister z s ks k hks]
    simp [hk]
  · have hl2 : (z.Unregister s ks).lookupHandler s k = some h := by
      rw [lookupHandler_Unregister z s ks k hks]
      simp [hk, hlk]
    exact ⟨hl2, fun evt hevt =>
      InvokeTr_found _ _ _ _ (by rw [hevt]; exact hl2)⟩

/-- A registry with one script id "s2" handling EventDeath and EventSay. -/
def wRegistry2 : ZoneQuestInterface :=
  ⟨[("s2", [(EventDeath, hTrue), (EventSay, hFalse)])]⟩

/-- Witness for C7 at a concrete input: full unregistration of "s2" makes
every invoke miss; unregistering only EventDeath keeps EventSay invocable
with its handler `hFalse`. -/
theorem quest_C7_witness :
    ((wRegistry2.Unregister "s2" []).lookupHandler "s2" EventDeath = none ∧
      (wRegistry2.Unregister "s2" []).InvokeTr "s2" wEvtDeath =
        ([], .ok false, wEvtDeath)) ∧
    ((wRegistry2.Unregister "s2" [EventDeath]).lookupHandler "s2" EventDeath =
        none ∧
      (wRegistry2.Unregister "s2" [EventDeath]).lookupHandler "s2" EventSay =
        some hFalse ∧
      (wRegistry2.Unregister "s2" [EventDeath]).InvokeTr "s2"
          { EventType := EventSay } =
        ([.call hFalse { EventType := EventSay }],
          (.ok false, { EventType := EventSay }))) := by
  refine ⟨⟨(quest_C7 wRegistry2 "s2").1.1 EventDeath,
    (quest_C7 wRegistry2 "s2").1.2 wEvtDeath⟩, ?_⟩
  have hpart := (quest_C7 wRegistry2 "s2").2 [EventDeath] (by decide)
  have h2 := hpart.2 EventSay hFalse (by decide) rfl
  exact ⟨hpart.1 EventDeath (by decide), h2.1,
    h2.2 { EventType := EventSay } rfl⟩

/-- Claim C4 counterexample: the malformed call
`Register("x", EventDeath, hTrue, EventSay)` (odd length) does fail at call
time (second conjunct: the panic), but it is not free of partial
registration — the pair (EventDeath, hTrue) processed before the failing
index remains installed, although the registry held nothing for "x" before
the call. -/
theorem quest_C4_counterexample :
    ((⟨[]⟩ : ZoneQuestInterface).Register "x"
        [.kind EventDeath, .handler hTrue, .kind EventSay]).2.isSome = true ∧
      ((⟨[]⟩ : ZoneQuestInterface).Register "x"
          [.kind EventDeath, .handler hTrue, .kind EventSay]).1.lookupHandler
        "x" EventDeath = some hTrue ∧
      (⟨[]⟩ : ZoneQuestInterface).lookupHandler "x" EventDeath = none :=
  ⟨rfl, rfl, rfl⟩

/-- Claim C4 as amended: for every malformed Register argument sequence
(odd length, or an element of the wrong dynamic type) the call fails at
call time with a panic; however, the registration is not atomic — pairs
processed before the malformed position remain installed, and an empty
entry for the script id may be created (see the counterexample). -/
theorem quest_C4_amended (z : ZoneQuestInterface) (name : String)
    (args : List RegisterArg) (hargs : validRegisterArgs args = false) :
    (z.Register name args).2.isSome = true := by
  rw [Register_snd]
  exact registerLoop_panics _ _ hargs

/-- Witness for the amended C4 at the spec's Scenario C input:
`Register("x", EventDeath)` panics. -/
theorem quest_C4_amended_witness :
    ((⟨[]⟩ : ZoneQuestInterface).Register "x" [.kind EventDeath]).2.isSome =
      true :=
  quest_C4_amended ⟨[]⟩ "x" [.kind EventDeath] rfl

/-- Claim C8 counterexample: `Register("x")` with zero kind/handler pairs is
accepted by the loop (no panic, third conjunct: it completes normally) yet
creates the entry "x" with an empty kind map — the no-empty-residue
invariant fails after a single Register operation on the empty registry
(which satisfied the invariant, second conjunct). -/
theorem quest_C8_counterexample :
    noEmptyResidue ((⟨[]⟩ : ZoneQuestInterface).Register "x" []).1 = false ∧
      noEmptyResidue (⟨[]⟩ : ZoneQuestInterface) = true ∧
      ((⟨[]⟩ : ZoneQuestInterface).Register "x" []).2 = none :=
  ⟨rfl, rfl, rfl⟩

/-- Claim C8 as amended: the no-empty-residue invariant is preserved by
every `Register` call whose argument sequence is well-formed and non-empty,
and by every `Unregister` call (`Invoke` performs no map write at all); a
`Register` with an empty — or malformed — pair list can instead create an
empty script-id entry, as the counterexample shows. -/
theorem quest_C8_amended (z : ZoneQuestInterface)
    (hz : noEmptyResidue z = true) :
    (∀ name : String, ∀ args : List RegisterArg,
        validRegisterArgs args = true → args ≠ [] →
          noEmptyResidue (z.Register name args).1 = true) ∧
      ∀ name : String, ∀ ks : List QuestEventType,
        noEmptyResidue (z.Unregister name ks) = true := by
  constructor
  · intro name args hargs hne
    unfold noEmptyResidue at hz ⊢
    rw [Register_fst_Handlers]
    refine mapInsert_all _ _ _ _ hz ?_
    have hL :
        (registerLoop ((mapLookup z.Handlers name).getD []) args).1 ≠ [] := by
      cases args with
      | nil => exact absurd rfl hne
      | cons a t =>
        cases a with
        | kind k =>
          cases t with
          | nil => simp [validRegisterArgs] at hargs
          | cons b t2 =>
            cases b with
            | kind k2 => simp [validRegisterArgs] at hargs
            | handler hh =>
              rw [show registerLoop ((mapLookup z.Handlers name).getD [])
                    (.kind k :: .handler hh :: t2) =
                  registerLoop
                    (mapInsert ((mapLookup z.Handlers name).getD []) k hh)
                    t2 from rfl]
              exact registerLoop_ne_nil _ _ (mapInsert_ne_nil _ _ _)
            | other d => simp [validRegisterArgs] at hargs
        | handler hh => simp [validRegisterArgs] at hargs
        | other d => simp [validRegisterArgs] at hargs
    simp [ne_nil_isEmpty_false hL]
  · intro name ks
    unfold noEmptyResidue at hz ⊢
    cases hzl : mapLookup z.Handlers name with
    | none =>
      simp only [ZoneQuestInterface.Unregister, hzl]
      exact hz
    | some inner =>
      simp only [ZoneQuestInterface.Unregister, hzl]
      by_cases hke : ks.isEmpty = true
      · rw [if_pos hke]
        exact mapDelete_all _ _ _ hz
      · rw [if_neg hke]
        by_cases hie : (ks.foldl (fun m e => mapDelete m e) inner).isEmpty =
            true
        · rw [if_pos hie]
          exact mapDelete_all _ _ _ hz
        · rw [if_neg hie]
          refine mapInsert_all _ _ _ _ hz ?_
          have hfalse :
              (ks.foldl (fun m e => mapDelete m e) inner).isEmpty = false := by
            cases hx : (ks.foldl (fun m e => mapDelete m e) inner).isEmpty
            · rfl
            · exact absurd hx hie
          simp [hfalse]

/-- Witness for the amended C8 at concrete inputs: a well-formed single-pair
Register and a full Unregister, both starting from the empty registry,
preserve the invariant. -/
theorem quest_C8_amended_witness :
    noEmptyResidue ((⟨[]⟩ : ZoneQuestInterface).Register "rat1"
        [.kind EventDeath, .handler hTrue]).1 = true ∧
      noEmptyResidue ((⟨[]⟩ : ZoneQuestInterface).Unregister "rat1" []) =
        true :=
  ⟨(quest_C8_amended ⟨[]⟩ rfl).1 "rat1" [.kind EventDeath, .handler hTrue]
      rfl (fun hh => nomatch hh),
    (quest_C8_amended ⟨[]⟩ rfl).2 "rat1" []⟩
